import Mathlib

namespace ElectionGuard

/-- Modelled from the spec: ballot casting metadata is opaque to the core (§3); the
`crate::ballot` module is outside src, so it is modelled as an opaque string payload. -/
structure ballot.Information where
  info : String
deriving DecidableEq

/-- Modelled from the spec: an ElGamal message is the ciphertext pair `(a, b)` encrypting a
group element under a public key (glossary); the `crate::crypto::elgamal` module is outside src. -/
structure elgamal.Message where
  a : Nat
  b : Nat
deriving DecidableEq

/-- Modelled from the spec: a Schnorr proof carries a commitment, a challenge and a response
(§4.3); the `crate::crypto::schnorr` module is outside src. -/
structure schnorr.Proof where
  commitment : Nat
  challenge : Nat
  response : Nat
deriving DecidableEq

/-- Modelled from the spec: a Chaum-Pedersen proof carries commitments `(a0, b0)`, a challenge
`c` and a response `v` (§4.4); the `crate::crypto::chaum_pederson` module is outside src. -/
structure chaum_pederson.Proof where
  committed_a : Nat
  committed_b : Nat
  challenge : Nat
  response : Nat
deriving DecidableEq

/-- Modelled from the spec: a disjunctive Chaum-Pedersen proof is structurally two
single-style sub-proofs, one for the `encodes 0` branch and one for the `encodes 1`
branch (§4.4). -/
structure chaum_pederson.disj.Proof where
  proof_zero : chaum_pederson.Proof
  proof_one : chaum_pederson.Proof
deriving DecidableEq

/-- Embeds `Parameters` of src/src/schema.rs: all the parameters necessary to form the
election.  `BigUint` fields and `Element` fields become `Nat`. -/
structure Parameters where
  date : String
  location : String
  num_trustees : Nat
  threshold : Nat
  prime : Nat
  generator : Nat
deriving DecidableEq

/-- Embeds `TrusteeCoefficient` of src/src/schema.rs: a public key `K_ij` generated from a
secret coefficient `a_ij`, plus a proof of possession of the private key. -/
structure TrusteeCoefficient where
  public_key : Nat
  proof : schnorr.Proof
deriving DecidableEq

/-- Embeds `TrusteePublicKey` of src/src/schema.rs: the public keys generated from each of a
trustee's secret coefficients; the first is the trustee's main public key. -/
structure TrusteePublicKey where
  coefficients : List TrusteeCoefficient
deriving DecidableEq

/-- Embeds `CastSelection` of src/src/schema.rs: an encryption of zero or one together with a
disjunctive proof of that fact. -/
structure CastSelection where
  message : elgamal.Message
  proof : chaum_pederson.disj.Proof
deriving DecidableEq

/-- Embeds `CastContest` of src/src/schema.rs: encrypted selections, the maximum number of
selections `L`, and a proof that the sum of the selections equals `L`. -/
structure CastContest where
  selections : List CastSelection
  max_selections : Nat
  num_selections_proof : chaum_pederson.Proof
deriving DecidableEq

/-- Embeds `CastBallot` of src/src/schema.rs: an encrypted ballot with its casting
information and contests. -/
structure CastBallot where
  ballot_info : ballot.Information
  contests : List CastContest
deriving DecidableEq

/-- Embeds `Share` and `ShareRecovery`-related `Fragment` of src/src/schema.rs: a fragment
`M_ij` of a missing trustee's share, the Lagrange coefficient `w_ij`, a Chaum-Pedersen proof,
and the contributing trustee's index. -/
structure Fragment where
  fragment : Nat
  lagrange_coefficient : Nat
  proof : chaum_pederson.Proof
  trustee_index : Nat
deriving DecidableEq

/-- Embeds `ShareRecovery` of src/src/schema.rs: the `k` fragments used to reconstruct a
decryption share of an absent trustee. -/
structure ShareRecovery where
  fragments : List Fragment
deriving DecidableEq

/-- Embeds `Share` of src/src/schema.rs: a single trustee's share of a decryption, with an
optional recovery when the trustee was absent, a Chaum-Pedersen proof, and the share `M_i`. -/
structure Share where
  recovery : Option ShareRecovery
  proof : chaum_pederson.Proof
  share : Nat
deriving DecidableEq

/-- Embeds `DecryptedValue` of src/src/schema.rs: the cleartext `t`, the decrypted value
`M = g^t`, the encryption of `t`, and the decryption shares `M_i`. -/
structure DecryptedValue where
  cleartext : Nat
  decrypted_value : Nat
  encrypted_value : elgamal.Message
  shares : List Share
deriving DecidableEq

/-- Embeds `ContestTally` of src/src/schema.rs: the summed tallies for all selections in a
contest. -/
structure ContestTally where
  selections : List DecryptedValue
deriving DecidableEq

/-- Embeds `SpoiledContest` of src/src/schema.rs: one decrypted value per selection. -/
structure SpoiledContest where
  selections : List DecryptedValue
deriving DecidableEq

/-- Embeds `SpoiledBallot` of src/src/schema.rs: a decryption of a spoiled encrypted ballot. -/
structure SpoiledBallot where
  ballot_info : ballot.Information
  contests : List SpoiledContest
deriving DecidableEq

/-- Embeds `Record` of src/src/schema.rs: all data from an ElectionGuard election.
Hash fields become `Nat` as they deserialize through `crate::deserialize::hash`. -/
structure Record where
  parameters : Parameters
  base_hash : Nat
  trustee_public_keys : List TrusteePublicKey
  joint_public_key : Nat
  extended_base_hash : Nat
  cast_ballots : List CastBallot
  contest_tallies : List ContestTally
  spoiled_ballots : List SpoiledBallot
deriving DecidableEq

/-- Modelled from the spec: the error kinds of §7; the error module is outside src. -/
inductive VerifError where
  | FormatError
  | MalformedValue
  | HashMismatch
  | InvalidProof
  | KeyMismatch
  | ThresholdError
  | DecryptionMismatch
  | ParameterError
  | ProofFailure
deriving DecidableEq

/-- Modelled from the spec: modular exponentiation mod `p` over exact unbounded-precision
non-negative integers (§4.1); the `crate::crypto::group` module is outside src. -/
def GroupArithmetic.pow (p base e : Nat) : Nat := base ^ e % p

/-- Modelled from the spec: modular multiplication mod `p` over exact unbounded-precision
non-negative integers (§4.1); the `crate::crypto::group` module is outside src. -/
def GroupArithmetic.mul (p a b : Nat) : Nat := a * b % p

/-- Modelled from the spec: Schnorr verification (§4.3) checks
`challenge == HashChain.challenge(context, [public_key, commitment])` and
`g^response == commitment * public_key^challenge mod p`.  The SHA-256 hash-chain itself is
external, so it is passed in as the `hash` argument. -/
def schnorr.check (p g context : Nat) (hash : Nat → List Nat → Nat)
    (public_key : Nat) (pr : schnorr.Proof) : Bool :=
  (pr.challenge == hash context [public_key, pr.commitment]) &&
  (GroupArithmetic.pow p g pr.response ==
    GroupArithmetic.mul p pr.commitment (GroupArithmetic.pow p public_key pr.challenge))

/-- Modelled from the spec: the two Chaum-Pedersen proof equations of §4.4 for claimed
exponent `x`, `g^v == a0 * a^c mod p` and `K^v == b0 * (b / g^x)^c mod p`, the group
division being expressed multiplicatively as `K^v * (g^x)^c == b0 * b^c mod p`. -/
def chaum_pederson.check_equations (p g K x : Nat) (m : elgamal.Message)
    (pr : chaum_pederson.Proof) : Bool :=
  (GroupArithmetic.pow p g pr.response ==
    GroupArithmetic.mul p pr.committed_a (GroupArithmetic.pow p m.a pr.challenge)) &&
  (GroupArithmetic.mul p (GroupArithmetic.pow p K pr.response)
      (GroupArithmetic.pow p (GroupArithmetic.pow p g x) pr.challenge) ==
    GroupArithmetic.mul p pr.committed_b (GroupArithmetic.pow p m.b pr.challenge))

/-- Modelled from the spec: single Chaum-Pedersen verification (§4.4): recompute
`c = HashChain.challenge(context, [a, b, a0, b0])`, require it to equal the proof's
challenge, and require both proof equations. -/
def chaum_pederson.check (p g K context : Nat) (hash : Nat → List Nat → Nat)
    (x : Nat) (m : elgamal.Message) (pr : chaum_pederson.Proof) : Bool :=
  (pr.challenge == hash context [m.a, m.b, pr.committed_a, pr.committed_b]) &&
  chaum_pederson.check_equations p g K x m pr

/-- Modelled from the spec: disjunctive Chaum-Pedersen verification (§4.4): both branches'
two equations (branch zero with claimed exponent 0, branch one with claimed exponent 1, each
with its own challenge and response), plus the shared challenge split
`c0 + c1 == c (mod q)` where `c` hashes the ciphertext and both branches' commitments. -/
def chaum_pederson.disj.check (p q g K context : Nat) (hash : Nat → List Nat → Nat)
    (m : elgamal.Message) (pr : chaum_pederson.disj.Proof) : Bool :=
  chaum_pederson.check_equations p g K 0 m pr.proof_zero &&
  chaum_pederson.check_equations p g K 1 m pr.proof_one &&
  ((pr.proof_zero.challenge + pr.proof_one.challenge) % q ==
    hash context [m.a, m.b, pr.proof_zero.committed_a, pr.proof_zero.committed_b,
      pr.proof_one.committed_a, pr.proof_one.committed_b] % q)

/-- Embeds the schema doc comment of `TrusteePublicKey` in src/src/schema.rs: the first
coefficient's public key is the trustee's main public key `K_i0`.  A trustee with no
coefficients contributes the multiplicative identity; the theorems about this function
assume a nonempty coefficient list, matching the real record layout. -/
def first_coefficient_key (t : TrusteePublicKey) : Nat :=
  match t.coefficients with
  | [] => 1
  | c :: _ => c.public_key

/-- Modelled from the spec: ElectionVerifier step 5 (§4.6) recomputes the joint public key
as the product mod `p` of each trustee's first coefficient key and reports `KeyMismatch`
when the stored `joint_public_key` differs. -/
def check_joint_public_key (r : Record) : List VerifError :=
  if r.joint_public_key =
      r.trustee_public_keys.foldl
        (fun acc t => GroupArithmetic.mul r.parameters.prime acc (first_coefficient_key t))
        (1 % r.parameters.prime)
  then [] else [VerifError.KeyMismatch]

/-- Modelled from the spec: trustee-key verification (§4.6 step 3) verifies each
coefficient's Schnorr proof and reports `ProofFailure` otherwise. -/
def verify_trustee_key (p g context : Nat) (hash : Nat → List Nat → Nat)
    (t : TrusteePublicKey) : List VerifError :=
  if t.coefficients.all (fun c => schnorr.check p g context hash c.public_key c.proof)
  then [] else [VerifError.ProofFailure]

/-- Modelled from the spec: the recovery path of `verify_share` (§4.5) over a
`ShareRecovery`: fragment Chaum-Pedersen verification and Lagrange-coefficient
recomputation (steps 1 and 2, whose exact equations live outside src) are abstracted as the
`fragOK` argument; the cardinality, distinctness, own-index and recombination requirements
are checked concretely: exactly `k` fragments, from `k` distinct trustee indices, none equal
to the absent trustee's own index `own`, and the claimed share must equal
`∏_j fragment_j ^ lagrange_coefficient_j mod p`. -/
def check_recovery (p k own : Nat) (fragOK : Fragment → Bool)
    (claimed : Nat) (r : ShareRecovery) : List VerifError :=
  (if r.fragments.all fragOK then [] else [VerifError.InvalidProof]) ++
  (if r.fragments.length = k then [] else [VerifError.ThresholdError]) ++
  (if (r.fragments.map (fun f => f.trustee_index)).Nodup then []
    else [VerifError.ThresholdError]) ++
  (if r.fragments.all (fun f => f.trustee_index != own) then []
    else [VerifError.ThresholdError]) ++
  (if claimed =
      r.fragments.foldl
        (fun acc f =>
          GroupArithmetic.mul p acc (GroupArithmetic.pow p f.fragment f.lagrange_coefficient))
        (1 % p)
    then [] else [VerifError.ThresholdError])

/-- Modelled from the spec: `verify_share` (§4.5).  When `recovery` is absent the share's
own Chaum-Pedersen proof is verified directly against the trustee public key and the
ciphertext `m` (abstracted as `shareOK`, its exact equations live outside src); when
`recovery` is present the recovery path `check_recovery` runs instead. -/
def verify_share (p k own : Nat) (m : elgamal.Message)
    (shareOK : elgamal.Message → Share → Bool) (fragOK : elgamal.Message → Fragment → Bool)
    (s : Share) : List VerifError :=
  match s.recovery with
  | none => if shareOK m s then [] else [VerifError.InvalidProof]
  | some r => check_recovery p k own (fun f => fragOK m f) s.share r

/-- Modelled from the spec: `combine_shares` (§4.5) multiplies all per-trustee share values
mod `p` to obtain the full decrypted message `M`. -/
def combine_shares (p : Nat) (shares : List Share) : Nat :=
  shares.foldl (fun acc s => GroupArithmetic.mul p acc s.share) (1 % p)

/-- Modelled from the spec: the `DecryptedValue` consistency check (§4.5):
`decrypted_value` must equal the combination of the shares, and must equal `g^cleartext`;
either mismatch is `DecryptionMismatch`. -/
def check_decrypted_value (p g : Nat) (dv : DecryptedValue) : List VerifError :=
  (if dv.decrypted_value = combine_shares p dv.shares then []
    else [VerifError.DecryptionMismatch]) ++
  (if dv.decrypted_value = GroupArithmetic.pow p g dv.cleartext then []
    else [VerifError.DecryptionMismatch])

/-- Modelled from the spec: per-trustee share verification over the share list of a
`DecryptedValue`, the share at position `i` belonging to the trustee with index `i + 1`
counting from the given start index. -/
def verify_shares (p k : Nat) (m : elgamal.Message)
    (shareOK : elgamal.Message → Share → Bool) (fragOK : elgamal.Message → Fragment → Bool) :
    Nat → List Share → List VerifError
  | _, [] => []
  | i, s :: ss =>
    verify_share p k i m shareOK fragOK s ++ verify_shares p k m shareOK fragOK (i + 1) ss

/-- Modelled from the spec: full verification of a `DecryptedValue` (§4.5 and §4.6 step 7):
verify every share against the encrypted value, then check the combination and the
cleartext consistency. -/
def verify_decrypted_value (p k g : Nat)
    (shareOK : elgamal.Message → Share → Bool) (fragOK : elgamal.Message → Fragment → Bool)
    (dv : DecryptedValue) : List VerifError :=
  verify_shares p k dv.encrypted_value shareOK fragOK 1 dv.shares ++
  check_decrypted_value p g dv

/-- Modelled from the spec: the entity identifiers of the verification report (§6): an
ordered list of (entity identifier, failure kind) pairs. -/
inductive EntityId where
  | trustee : Nat → EntityId
  | election : EntityId
  | ballotContest : Nat → Nat → EntityId
  | tally : Nat → EntityId
  | spoiled : Nat → EntityId
deriving DecidableEq

/-- Indexes each element of a list from `n` upward and pairs the index with every result of
the per-element checker `f`. -/
def enumFrom (f : α → List β) : Nat → List α → List (Nat × β)
  | _, [] => []
  | n, x :: xs => (f x).map (fun e => (n, e)) ++ enumFrom f (n + 1) xs

/-- Modelled from the spec: ElectionVerifier (§4.6, §7) over an already-deserialized record.
A record that fails to deserialize (`none`) is fatal `FormatError`; otherwise every trustee,
the joint public key, every contest of every cast ballot, every contest tally and every
spoiled ballot is checked with the given per-entity checkers, and all failures are
aggregated into one report — verification never stops at the first failure. -/
def verify_record (ct : TrusteePublicKey → List VerifError)
    (cc : CastContest → List VerifError) (cy : ContestTally → List VerifError)
    (cs : SpoiledBallot → List VerifError) :
    Option Record → Except VerifError (List (EntityId × VerifError))
  | none => Except.error VerifError.FormatError
  | some r =>
    Except.ok
      ((enumFrom ct 0 r.trustee_public_keys).map (fun q => (EntityId.trustee q.1, q.2)) ++
        (check_joint_public_key r).map (fun e => (EntityId.election, e)) ++
        (enumFrom (fun b => enumFrom cc 0 b.contests) 0 r.cast_ballots).map
          (fun q => (EntityId.ballotContest q.1 q.2.1, q.2.2)) ++
        (enumFrom cy 0 r.contest_tallies).map (fun q => (EntityId.tally q.1, q.2)) ++
        (enumFrom cs 0 r.spoiled_ballots).map (fun q => (EntityId.spoiled q.1, q.2)))

/-- Shape of a cast ballot: its casting information together with the number of selections
of each contest, in order. -/
def castShape (cb : CastBallot) : ballot.Information × List Nat :=
  (cb.ballot_info, cb.contests.map (fun c => c.selections.length))

/-- Shape of a spoiled ballot: its casting information together with the number of
decrypted selections of each contest, in order. -/
def spoiledShape (sb : SpoiledBallot) : ballot.Information × List Nat :=
  (sb.ballot_info, sb.contests.map (fun c => c.selections.length))

/-- Spoils a cast ballot: keeps the casting information and the contest sequence, replacing
every proof-carrying encrypted selection by the decrypted value `d` assigns to it. -/
def spoil_with (d : CastSelection → DecryptedValue) (cb : CastBallot) : SpoiledBallot :=
  ⟨cb.ballot_info, cb.contests.map (fun c => ⟨c.selections.map d⟩)⟩

/-- Modelled from the spec: the on-disk representation is a tree of named fields (§6); the
external deserializer hands the core already-typed unbounded integers, so integer leaves are
modelled exactly.  Fields are laid out in the declaration order of src/src/schema.rs. -/
inductive Value where
  | nat : Nat → Value
  | str : String → Value
  | list : List Value → Value

/-- Deserializes every element of a list of values, failing if any element fails. -/
def mapOpt (g : Value → Option α) : List Value → Option (List α)
  | [] => some []
  | v :: vs =>
    match g v, mapOpt g vs with
    | some a, some ys => some (a :: ys)
    | _, _ => none

/-- Serializes an optional value as an empty or singleton list. -/
def serialize_option (f : α → Value) : Option α → Value
  | none => Value.list []
  | some a => Value.list [f a]

/-- Deserializes an optional value from an empty or singleton list. -/
def deserialize_option (g : Value → Option α) : Value → Option (Option α)
  | Value.list [] => some none
  | Value.list [v] =>
    match g v with
    | some a => some (some a)
    | none => none
  | _ => none

/-- Serializer for the opaque ballot information. -/
def serialize_information (i : ballot.Information) : Value := Value.str i.info

/-- Deserializer for the opaque ballot information. -/
def deserialize_information : Value → Option ballot.Information
  | Value.str s => some ⟨s⟩
  | _ => none

/-- Serializer for an ElGamal message. -/
def serialize_message (m : elgamal.Message) : Value :=
  Value.list [Value.nat m.a, Value.nat m.b]

/-- Deserializer for an ElGamal message. -/
def deserialize_message : Value → Option elgamal.Message
  | Value.list [Value.nat a, Value.nat b] => some ⟨a, b⟩
  | _ => none

/-- Serializer for a Schnorr proof. -/
def serialize_schnorr (pr : schnorr.Proof) : Value :=
  Value.list [Value.nat pr.commitment, Value.nat pr.challenge, Value.nat pr.response]

/-- Deserializer for a Schnorr proof. -/
def deserialize_schnorr : Value → Option schnorr.Proof
  | Value.list [Value.nat c, Value.nat h, Value.nat r] => some ⟨c, h, r⟩
  | _ => none

/-- Serializer for a Chaum-Pedersen proof. -/
def serialize_cp (pr : chaum_pederson.Proof) : Value :=
  Value.list [Value.nat pr.committed_a, Value.nat pr.committed_b,
    Value.nat pr.challenge, Value.nat pr.response]

/-- Deserializer for a Chaum-Pedersen proof. -/
def deserialize_cp : Value → Option chaum_pederson.Proof
  | Value.list [Value.nat a, Value.nat b, Value.nat c, Value.nat v] => some ⟨a, b, c, v⟩
  | _ => none

/-- Serializer for a disjunctive Chaum-Pedersen proof. -/
def serialize_disj (pr : chaum_pederson.disj.Proof) : Value :=
  Value.list [serialize_cp pr.proof_zero, serialize_cp pr.proof_one]

/-- Deserializer for a disjunctive Chaum-Pedersen proof. -/
def deserialize_disj : Value → Option chaum_pederson.disj.Proof
  | Value.list [v0, v1] =>
    match deserialize_cp v0, deserialize_cp v1 with
    | some p0, some p1 => some ⟨p0, p1⟩
    | _, _ => none
  | _ => none

/-- Serializer for the election parameters. -/
def serialize_parameters (x : Parameters) : Value :=
  Value.list [Value.str x.date, Value.str x.location, Value.nat x.num_trustees,
    Value.nat x.threshold, Value.nat x.prime, Value.nat x.generator]

/-- Deserializer for the election parameters. -/
def deserialize_parameters : Value → Option Parameters
  | Value.list [Value.str d, Value.str l, Value.nat n, Value.nat k, Value.nat p,
      Value.nat g] => some ⟨d, l, n, k, p, g⟩
  | _ => none

/-- Serializer for a trustee coefficient. -/
def serialize_trustee_coefficient (x : TrusteeCoefficient) : Value :=
  Value.list [Value.nat x.public_key, serialize_schnorr x.proof]

/-- Deserializer for a trustee coefficient. -/
def deserialize_trustee_coefficient : Value → Option TrusteeCoefficient
  | Value.list [Value.nat pk, vp] =>
    match deserialize_schnorr vp with
    | some w => some ⟨pk, w⟩
    | none => none
  | _ => none

/-- Serializer for a trustee public key. -/
def serialize_trustee_public_key (x : TrusteePublicKey) : Value :=
  Value.list (x.coefficients.map serialize_trustee_coefficient)

/-- Deserializer for a trustee public key. -/
def deserialize_trustee_public_key : Value → Option TrusteePublicKey
  | Value.list vs =>
    match mapOpt deserialize_trustee_coefficient vs with
    | some cs => some ⟨cs⟩
    | none => none
  | _ => none

/-- Serializer for a cast selection. -/
def serialize_cast_selection (x : CastSelection) : Value :=
  Value.list [serialize_message x.message, serialize_disj x.proof]

/-- Deserializer for a cast selection. -/
def deserialize_cast_selection : Value → Option CastSelection
  | Value.list [vm, vp] =>
    match deserialize_message vm, deserialize_disj vp with
    | some m, some pr => some ⟨m, pr⟩
    | _, _ => none
  | _ => none

/-- Serializer for a cast contest. -/
def serialize_cast_contest (x : CastContest) : Value :=
  Value.list [Value.list (x.selections.map serialize_cast_selection),
    Value.nat x.max_selections, serialize_cp x.num_selections_proof]

/-- Deserializer for a cast contest. -/
def deserialize_cast_contest : Value → Option CastContest
  | Value.list [Value.list vs, Value.nat l, vp] =>
    match mapOpt deserialize_cast_selection vs, deserialize_cp vp with
    | some ss, some pr => some ⟨ss, l, pr⟩
    | _, _ => none
  | _ => none

/-- Serializer for a cast ballot. -/
def serialize_cast_ballot (x : CastBallot) : Value :=
  Value.list [serialize_information x.ballot_info,
    Value.list (x.contests.map serialize_cast_contest)]

/-- Deserializer for a cast ballot. -/
def deserialize_cast_ballot : Value → Option CastBallot
  | Value.list [vi, Value.list vs] =>
    match deserialize_information vi, mapOpt deserialize_cast_contest vs with
    | some i, some cs => some ⟨i, cs⟩
    | _, _ => none
  | _ => none

/-- Serializer for a fragment. -/
def serialize_fragment (x : Fragment) : Value :=
  Value.list [Value.nat x.fragment, Value.nat x.lagrange_coefficient, serialize_cp x.proof,
    Value.nat x.trustee_index]

/-- Deserializer for a fragment. -/
def deserialize_fragment : Value → Option Fragment
  | Value.list [Value.nat f, Value.nat w, vp, Value.nat i] =>
    match deserialize_cp vp with
    | some pr => some ⟨f, w, pr, i⟩
    | none => none
  | _ => none

/-- Serializer for a share recovery. -/
def serialize_share_recovery (x : ShareRecovery) : Value :=
  Value.list (x.fragments.map serialize_fragment)

/-- Deserializer for a share recovery. -/
def deserialize_share_recovery : Value → Option ShareRecovery
  | Value.list vs =>
    match mapOpt deserialize_fragment vs with
    | some fs => some ⟨fs⟩
    | none => none
  | _ => none

/-- Serializer for a decryption share. -/
def serialize_share (x : Share) : Value :=
  Value.list [serialize_option serialize_share_recovery x.recovery, serialize_cp x.proof,
    Value.nat x.share]

/-- Deserializer for a decryption share. -/
def deserialize_share : Value → Option Share
  | Value.list [vr, vp, Value.nat sh] =>
    match deserialize_option deserialize_share_recovery vr, deserialize_cp vp with
    | some rec, some pr => some ⟨rec, pr, sh⟩
    | _, _ => none
  | _ => none

/-- Serializer for a decrypted value. -/
def serialize_decrypted_value (x : DecryptedValue) : Value :=
  Value.list [Value.nat x.cleartext, Value.nat x.decrypted_value,
    serialize_message x.encrypted_value, Value.list (x.shares.map serialize_share)]

/-- Deserializer for a decrypted value. -/
def deserialize_decrypted_value : Value → Option DecryptedValue
  | Value.list [Value.nat t, Value.nat m, ve, Value.list vs] =>
    match deserialize_message ve, mapOpt deserialize_share vs with
    | some e, some ss => some ⟨t, m, e, ss⟩
    | _, _ => none
  | _ => none

/-- Serializer for a contest tally. -/
def serialize_contest_tally (x : ContestTally) : Value :=
  Value.list (x.selections.map serialize_decrypted_value)

/-- Deserializer for a contest tally. -/
def deserialize_contest_tally : Value → Option ContestTally
  | Value.list vs =>
    match mapOpt deserialize_decrypted_value vs with
    | some ds => some ⟨ds⟩
    | none => none
  | _ => none

/-- Serializer for a spoiled contest. -/
def serialize_spoiled_contest (x : SpoiledContest) : Value :=
  Value.list (x.selections.map serialize_decrypted_value)

/-- Deserializer for a spoiled contest. -/
def deserialize_spoiled_contest : Value → Option SpoiledContest
  | Value.list vs =>
    match mapOpt deserialize_decrypted_value vs with
    | some ds => some ⟨ds⟩
    | none => none
  | _ => none

/-- Serializer for a spoiled ballot. -/
def serialize_spoiled_ballot (x : SpoiledBallot) : Value :=
  Value.list [serialize_information x.ballot_info,
    Value.list (x.contests.map serialize_spoiled_contest)]

/-- Deserializer for a spoiled ballot. -/
def deserialize_spoiled_ballot : Value → Option SpoiledBallot
  | Value.list [vi, Value.list vs] =>
    match deserialize_information vi, mapOpt deserialize_spoiled_contest vs with
    | some i, some cs => some ⟨i, cs⟩
    | _, _ => none
  | _ => none

lemma foldl_group_mul (p : Nat) (f : α → Nat) :
    ∀ (xs : List α) (a : Nat),
      xs.foldl (fun acc x => GroupArithmetic.mul p acc (f x)) (a % p) =
        a * (xs.map f).prod % p := by
  intro xs
  induction xs with
  | nil =>
    intro a
    simp
  | cons x xs ih =>
    intro a
    have hstep : GroupArithmetic.mul p (a % p) (f x) = a * f x % p := by
      rw [GroupArithmetic.mul, Nat.mod_mul_mod]
    simp only [List.foldl_cons, List.map_cons, List.prod_cons, hstep, ih (a * f x),
      Nat.mul_assoc]

lemma prod_map_mod (p : Nat) :
    ∀ l : List Nat, (l.map (fun x => x % p)).prod % p = l.prod % p := by
  intro l
  induction l with
  | nil => rfl
  | cons x xs ih =>
    simp only [List.map_cons, List.prod_cons]
    exact Nat.ModEq.mul (Nat.mod_modEq x p) ih

lemma nil_iff_of_ite (c : Prop) [Decidable c] (e : VerifError) :
    (if c then ([] : List VerifError) else [e]) = [] ↔ c := by
  split <;> simp_all

lemma mapOpt_map (g : Value → Option α) (f : α → Value) (h : ∀ a, g (f a) = some a) :
    ∀ xs : List α, mapOpt g (xs.map f) = some xs := by
  intro xs
  induction xs with
  | nil => rfl
  | cons x xs ih => simp [mapOpt, h, ih]

lemma enumFrom_shift (f : α → List β) :
    ∀ (xs : List α) (n : Nat),
      enumFrom f n xs = (enumFrom f 0 xs).map (fun q => (q.1 + n, q.2)) := by
  intro xs
  induction xs with
  | nil => intro n; rfl
  | cons x xs ih =>
    intro n
    simp only [enumFrom, List.map_append, List.map_map]
    congr 1
    · simp
    · rw [ih (n + 1), ih 1, List.map_map]
      congr 1
      funext q
      rw [Function.comp_apply, Prod.mk.injEq]
      exact ⟨by omega, rfl⟩

lemma mem_enumFrom_zero (f : α → List β) :
    ∀ (xs : List α) (j : Nat) (e : β),
      (j, e) ∈ enumFrom f 0 xs ↔ ∃ x, xs.get? j = some x ∧ e ∈ f x := by
  intro xs
  induction xs with
  | nil => intro j e; simp [enumFrom]
  | cons x xs ih =>
    intro j e
    have hsplit : enumFrom f 0 (x :: xs) =
        (f x).map (fun e => (0, e)) ++ (enumFrom f 0 xs).map (fun q => (q.1 + 1, q.2)) := by
      rw [show enumFrom f 0 (x :: xs) =
        (f x).map (fun e => (0, e)) ++ enumFrom f 1 xs from rfl, enumFrom_shift f xs 1]
    rw [hsplit]
    cases j with
    | zero => simp [List.mem_append, List.mem_map]
    | succ j => simp [List.mem_append, List.mem_map, Prod.ext_iff, ih]

lemma rt_information :
    ∀ x, deserialize_information (serialize_information x) = some x := fun _ => rfl

lemma rt_message : ∀ x, deserialize_message (serialize_message x) = some x := fun _ => rfl

lemma rt_schnorr : ∀ x, deserialize_schnorr (serialize_schnorr x) = some x := fun _ => rfl

lemma rt_cp : ∀ x, deserialize_cp (serialize_cp x) = some x := fun _ => rfl

lemma rt_disj : ∀ x, deserialize_disj (serialize_disj x) = some x := fun _ => rfl

lemma rt_parameters :
    ∀ x, deserialize_parameters (serialize_parameters x) = some x := fun _ => rfl

lemma rt_trustee_coefficient :
    ∀ x, deserialize_trustee_coefficient (serialize_trustee_coefficient x) = some x :=
  fun _ => rfl

lemma rt_trustee_public_key :
    ∀ x, deserialize_trustee_public_key (serialize_trustee_public_key x) = some x := by
  intro x
  simp [serialize_trustee_public_key, deserialize_trustee_public_key,
    mapOpt_map deserialize_trustee_coefficient serialize_trustee_coefficient
      rt_trustee_coefficient]

lemma rt_cast_selection :
    ∀ x, deserialize_cast_selection (serialize_cast_selection x) = some x := fun _ => rfl

lemma rt_cast_contest :
    ∀ x, deserialize_cast_contest (serialize_cast_contest x) = some x := by
  intro x
  simp [serialize_cast_contest, deserialize_cast_contest, rt_cp,
    mapOpt_map deserialize_cast_selection serialize_cast_selection rt_cast_selection]

lemma rt_cast_ballot :
    ∀ x, deserialize_cast_ballot (serialize_cast_ballot x) = some x := by
  intro x
  simp [serialize_cast_ballot, deserialize_cast_ballot, serialize_information,
    deserialize_information,
    mapOpt_map deserialize_cast_contest serialize_cast_contest rt_cast_contest]

lemma rt_fragment :
    ∀ x, deserialize_fragment (serialize_fragment x) = some x := fun _ => rfl

lemma rt_share_recovery :
    ∀ x, deserialize_share_recovery (serialize_share_recovery x) = some x := by
  intro x
  simp [serialize_share_recovery, deserialize_share_recovery,
    mapOpt_map deserialize_fragment serialize_fragment rt_fragment]

lemma rt_option (f : α → Value) (g : Value → Option α) (h : ∀ a, g (f a) = some a) :
    ∀ o : Option α, deserialize_option g (serialize_option f o) = some o := by
  intro o
  cases o with
  | none => rfl
  | some a => simp [serialize_option, deserialize_option, h]

lemma rt_share : ∀ x, deserialize_share (serialize_share x) = some x := by
  intro x
  simp [serialize_share, deserialize_share,
    rt_option serialize_share_recovery deserialize_share_recovery rt_share_recovery,
    rt_cp]

lemma rt_decrypted_value :
    ∀ x, deserialize_decrypted_value (serialize_decrypted_value x) = some x := by
  intro x
  simp [serialize_decrypted_value, deserialize_decrypted_value, serialize_message,
    deserialize_message, mapOpt_map deserialize_share serialize_share rt_share]

lemma rt_contest_tally :
    ∀ x, deserialize_contest_tally (serialize_contest_tally x) = some x := by
  intro x
  simp [serialize_contest_tally, deserialize_contest_tally,
    mapOpt_map deserialize_decrypted_value serialize_decrypted_value rt_decrypted_value]

lemma rt_spoiled_contest :
    ∀ x, deserialize_spoiled_contest (serialize_spoiled_contest x) = some x := by
  intro x
  simp [serialize_spoiled_contest, deserialize_spoiled_contest,
    mapOpt_map deserialize_decrypted_value serialize_decrypted_value rt_decrypted_value]

lemma rt_spoiled_ballot :
    ∀ x, deserialize_spoiled_ballot (serialize_spoiled_ballot x) = some x := by
  intro x
  simp [serialize_spoiled_ballot, deserialize_spoiled_ballot, serialize_information,
    deserialize_information,
    mapOpt_map deserialize_spoiled_contest serialize_spoiled_contest rt_spoiled_contest]

/-- C9: for every value of each schema type (Parameters, TrusteePublicKey,
TrusteeCoefficient, CastBallot, CastContest, CastSelection, ContestTally, SpoiledBallot,
SpoiledContest, DecryptedValue, Share, ShareRecovery, Fragment), serializing it and then
deserializing the result yields a structurally equal value. -/
theorem serialize_roundtrip_all :
    (∀ x : Parameters, deserialize_parameters (serialize_parameters x) = some x) ∧
    (∀ x : TrusteePublicKey,
      deserialize_trustee_public_key (serialize_trustee_public_key x) = some x) ∧
    (∀ x : TrusteeCoefficient,
      deserialize_trustee_coefficient (serialize_trustee_coefficient x) = some x) ∧
    (∀ x : CastBallot, deserialize_cast_ballot (serialize_cast_ballot x) = some x) ∧
    (∀ x : CastContest, deserialize_cast_contest (serialize_cast_contest x) = some x) ∧
    (∀ x : CastSelection,
      deserialize_cast_selection (serialize_cast_selection x) = some x) ∧
    (∀ x : ContestTally, deserialize_contest_tally (serialize_contest_tally x) = some x) ∧
    (∀ x : SpoiledBallot,
      deserialize_spoiled_ballot (serialize_spoiled_ballot x) = some x) ∧
    (∀ x : SpoiledContest,
      deserialize_spoiled_contest (serialize_spoiled_contest x) = some x) ∧
    (∀ x : DecryptedValue,
      deserialize_decrypted_value (serialize_decrypted_value x) = some x) ∧
    (∀ x : Share, deserialize_share (serialize_share x) = some x) ∧
    (∀ x : ShareRecovery,
      deserialize_share_recovery (serialize_share_recovery x) = some x) ∧
    (∀ x : Fragment, deserialize_fragment (serialize_fragment x) = some x) :=
  ⟨rt_parameters, rt_trustee_public_key, rt_trustee_coefficient, rt_cast_ballot,
    rt_cast_contest, rt_cast_selection, rt_contest_tally, rt_spoiled_ballot,
    rt_spoiled_contest, rt_decrypted_value, rt_share, rt_share_recovery, rt_fragment⟩

/-- C10: the data-model types enforce no cardinality constraints: coefficient, fragment,
share and selection vectors of any length — zero entries, or a count different from any
threshold `k` — are accepted at the schema and deserialization level. -/
theorem schema_no_cardinality_constraints :
    (∀ k : Nat, ∃ t : TrusteePublicKey, t.coefficients.length ≠ k ∧
      deserialize_trustee_public_key (serialize_trustee_public_key t) = some t) ∧
    deserialize_trustee_public_key (serialize_trustee_public_key ⟨[]⟩) = some ⟨[]⟩ ∧
    deserialize_share_recovery (serialize_share_recovery ⟨[]⟩) = some ⟨[]⟩ ∧
    deserialize_share_recovery
        (serialize_share_recovery
          ⟨[⟨0, 0, ⟨0, 0, 0, 0⟩, 0⟩, ⟨0, 0, ⟨0, 0, 0, 0⟩, 1⟩]⟩) =
      some ⟨[⟨0, 0, ⟨0, 0, 0, 0⟩, 0⟩, ⟨0, 0, ⟨0, 0, 0, 0⟩, 1⟩]⟩ ∧
    deserialize_decrypted_value (serialize_decrypted_value ⟨0, 0, ⟨0, 0⟩, []⟩) =
      some ⟨0, 0, ⟨0, 0⟩, []⟩ ∧
    deserialize_cast_contest (serialize_cast_contest ⟨[], 0, ⟨0, 0, 0, 0⟩⟩) =
      some ⟨[], 0, ⟨0, 0, 0, 0⟩⟩ := by
  refine ⟨?_, rfl, rfl, rfl, rfl, rfl⟩
  intro k
  refine ⟨⟨List.replicate (k + 1) (⟨0, ⟨0, 0, 0⟩⟩ : TrusteeCoefficient)⟩, ?_,
    rt_trustee_public_key _⟩
  simp

/-- C7: a SpoiledBallot has the same shape as a CastBallot — ballot information plus a
sequence of contests — except that each spoiled contest holds one DecryptedValue per
selection instead of proof-carrying ciphertexts: spoiling a cast ballot through any
per-selection decryption preserves the shape and replaces each selection by its decrypted
value, and every spoiled-ballot shape is realized by some cast ballot. -/
theorem spoiled_ballot_shape :
    (∀ (d : CastSelection → DecryptedValue) (cb : CastBallot),
      spoiledShape (spoil_with d cb) = castShape cb ∧
      (spoil_with d cb).contests.map (fun c => c.selections) =
        cb.contests.map (fun c => c.selections.map d)) ∧
    (∀ sb : SpoiledBallot, ∃ cb : CastBallot, castShape cb = spoiledShape sb) := by
  constructor
  · intro d cb
    constructor
    · simp [spoiledShape, castShape, spoil_with, List.map_map, Function.comp]
    · simp [spoil_with, List.map_map, Function.comp]
  · intro sb
    refine ⟨⟨sb.ballot_info, sb.contests.map (fun c =>
      ⟨c.selections.map (fun _ => ⟨⟨0, 0⟩, ⟨⟨0, 0, 0, 0⟩, ⟨0, 0, 0, 0⟩⟩⟩), 0,
        ⟨0, 0, 0, 0⟩⟩)⟩, ?_⟩
    simp [castShape, spoiledShape, List.map_map, Function.comp]

/-- C8: every numeric field of the data model is an unbounded-precision non-negative
integer — values with arbitrarily large `num_trustees`, `threshold`, `prime`,
`max_selections`, `cleartext`, `share`, `fragment`, `lagrange_coefficient`,
`trustee_index` and hash fields exist — and the group arithmetic over them is exact
modular arithmetic with no overflow: `mul` and `pow` agree with the mathematical
operations and land below the modulus. -/
theorem numeric_fields_unbounded_exact :
    ∀ (n p a b : Nat), 0 < p →
      ((∃ P : Parameters, P.num_trustees = n ∧ P.threshold = n ∧ P.prime = n) ∧
        (∃ c : CastContest, c.max_selections = n) ∧
        (∃ d : DecryptedValue, d.cleartext = n) ∧
        (∃ s : Share, s.share = n) ∧
        (∃ f : Fragment,
          f.fragment = n ∧ f.lagrange_coefficient = n ∧ f.trustee_index = n) ∧
        (∃ r : Record, r.base_hash = n ∧ r.extended_base_hash = n)) ∧
      (GroupArithmetic.mul p a b = a * b % p ∧ GroupArithmetic.mul p a b < p ∧
        GroupArithmetic.pow p a b = a ^ b % p ∧ GroupArithmetic.pow p a b < p) := by
  intro n p a b hp
  refine ⟨⟨⟨⟨"", "", n, n, n, 0⟩, rfl, rfl, rfl⟩,
    ⟨⟨[], n, ⟨0, 0, 0, 0⟩⟩, rfl⟩,
    ⟨⟨n, 0, ⟨0, 0⟩, []⟩, rfl⟩,
    ⟨⟨none, ⟨0, 0, 0, 0⟩, n⟩, rfl⟩,
    ⟨⟨n, n, ⟨0, 0, 0, 0⟩, n⟩, rfl, rfl, rfl⟩,
    ⟨⟨⟨"", "", 0, 0, 0, 0⟩, n, [], 0, n, [], [], []⟩, rfl, rfl⟩⟩,
    rfl, Nat.mod_lt _ hp, rfl, Nat.mod_lt _ hp⟩

/-- Closed witness for the numeric-field theorem at `n = 9`, `p = 5`, `a = 3`, `b = 4`. -/
theorem numeric_fields_unbounded_exact_w :
    ((∃ P : Parameters, P.num_trustees = 9 ∧ P.threshold = 9 ∧ P.prime = 9) ∧
      (∃ c : CastContest, c.max_selections = 9) ∧
      (∃ d : DecryptedValue, d.cleartext = 9) ∧
      (∃ s : Share, s.share = 9) ∧
      (∃ f : Fragment,
        f.fragment = 9 ∧ f.lagrange_coefficient = 9 ∧ f.trustee_index = 9) ∧
      (∃ r : Record, r.base_hash = 9 ∧ r.extended_base_hash = 9)) ∧
    (GroupArithmetic.mul 5 3 4 = 3 * 4 % 5 ∧ GroupArithmetic.mul 5 3 4 < 5 ∧
      GroupArithmetic.pow 5 3 4 = 3 ^ 4 % 5 ∧ GroupArithmetic.pow 5 3 4 < 5) :=
  numeric_fields_unbounded_exact 9 5 3 4 (by decide)

/-- C4: disjunctive Chaum-Pedersen verification accepts exactly when both branches' two
proof equations hold — each branch with its own challenge and response, branch zero for
claimed exponent 0 and branch one for claimed exponent 1, through the same per-branch
equations — and the challenge split `c0 + c1 ≡ c (mod q)` holds, `c` being the hash-chain
challenge over the ciphertext and both branches' commitments; the split check is symmetric
in the two branches' challenges. -/
theorem disj_check_characterization :
    ∀ (p q g K context : Nat) (hash : Nat → List Nat → Nat) (s : CastSelection),
      (chaum_pederson.disj.check p q g K context hash s.message s.proof = true ↔
        (g ^ s.proof.proof_zero.response % p =
            s.proof.proof_zero.committed_a *
              (s.message.a ^ s.proof.proof_zero.challenge % p) % p ∧
          K ^ s.proof.proof_zero.response % p *
              ((g ^ 0) ^ s.proof.proof_zero.challenge % p) % p =
            s.proof.proof_zero.committed_b *
              (s.message.b ^ s.proof.proof_zero.challenge % p) % p ∧
          g ^ s.proof.proof_one.response % p =
            s.proof.proof_one.committed_a *
              (s.message.a ^ s.proof.proof_one.challenge % p) % p ∧
          K ^ s.proof.proof_one.response % p *
              ((g ^ 1) ^ s.proof.proof_one.challenge % p) % p =
            s.proof.proof_one.committed_b *
              (s.message.b ^ s.proof.proof_one.challenge % p) % p ∧
          (s.proof.proof_zero.challenge + s.proof.proof_one.challenge) % q =
            hash context [s.message.a, s.message.b, s.proof.proof_zero.committed_a,
              s.proof.proof_zero.committed_b, s.proof.proof_one.committed_a,
              s.proof.proof_one.committed_b] % q)) ∧
      ((s.proof.proof_zero.challenge + s.proof.proof_one.challenge) % q =
        (s.proof.proof_one.challenge + s.proof.proof_zero.challenge) % q) := by
  intro p q g K context hash s
  obtain ⟨m, pr⟩ := s
  constructor
  · simp only [chaum_pederson.disj.check, chaum_pederson.check_equations,
      GroupArithmetic.pow, GroupArithmetic.mul, Bool.and_eq_true, beq_iff_eq]
    rw [← Nat.pow_mod, ← Nat.pow_mod]
    tauto
  · rw [Nat.add_comm]

/-- C1: the verifier recomputes the joint public key as the product modulo `p` of each
trustee's first coefficient public key `K_i0` and accepts exactly when the stored
`joint_public_key` equals it, reporting `KeyMismatch` when the stored key differs;
`first_coefficient_key` is indeed the public key of the first coefficient entry. -/
theorem joint_public_key_check :
    ∀ r : Record,
      (check_joint_public_key r = [] ↔
        r.joint_public_key =
          (r.trustee_public_keys.map first_coefficient_key).prod % r.parameters.prime) ∧
      (∀ (t : TrusteePublicKey) (c : TrusteeCoefficient) (rest : List TrusteeCoefficient),
        t.coefficients = c :: rest → first_coefficient_key t = c.public_key) ∧
      (r.joint_public_key ≠
          (r.trustee_public_keys.map first_coefficient_key).prod % r.parameters.prime →
        check_joint_public_key r = [VerifError.KeyMismatch]) := by
  intro r
  have hfold : r.trustee_public_keys.foldl
      (fun acc t => GroupArithmetic.mul r.parameters.prime acc (first_coefficient_key t))
      (1 % r.parameters.prime) =
      (r.trustee_public_keys.map first_coefficient_key).prod % r.parameters.prime := by
    have h1 := foldl_group_mul r.parameters.prime first_coefficient_key
      r.trustee_public_keys 1
    rw [one_mul] at h1
    exact h1
  refine ⟨?_, ?_, ?_⟩
  · rw [check_joint_public_key, hfold]
    exact nil_iff_of_ite _ _
  · intro t c rest h
    obtain ⟨cs⟩ := t
    have h' : cs = c :: rest := h
    subst h'
    rfl
  · intro hne
    rw [check_joint_public_key, hfold, if_neg hne]

/-- Closed witness for the joint-public-key theorem: the first coefficient key of a
concrete trustee, and a concrete record whose stored joint key differs from the product of
first coefficient keys and is reported as `KeyMismatch`. -/
theorem joint_public_key_check_w :
    first_coefficient_key ⟨[⟨3, ⟨0, 0, 0⟩⟩]⟩ = 3 ∧
    check_joint_public_key
        ⟨⟨"", "", 2, 1, 7, 2⟩, 0, [⟨[⟨3, ⟨0, 0, 0⟩⟩]⟩, ⟨[⟨4, ⟨0, 0, 0⟩⟩]⟩], 0, 0,
          [], [], []⟩ =
      [VerifError.KeyMismatch] :=
  ⟨(joint_public_key_check
      ⟨⟨"", "", 2, 1, 7, 2⟩, 0, [], 0, 0, [], [], []⟩).2.1
      ⟨[⟨3, ⟨0, 0, 0⟩⟩]⟩ ⟨3, ⟨0, 0, 0⟩⟩ [] rfl,
    (joint_public_key_check
      ⟨⟨"", "", 2, 1, 7, 2⟩, 0, [⟨[⟨3, ⟨0, 0, 0⟩⟩]⟩, ⟨[⟨4, ⟨0, 0, 0⟩⟩]⟩], 0, 0,
        [], [], []⟩).2.2 (by decide)⟩

/-- C2: for every share whose recovery is present, share verification accepts exactly when
the recovery carries fragments that all pass their own verification, number exactly `k`,
come from `k` distinct trustee indices none of which is the absent trustee's own index, and
recombine to the claimed share: `M_i = ∏_j fragment_j ^ w_ij mod p`; any violation is
rejected. -/
theorem share_recovery_check :
    ∀ (p k own : Nat) (m : elgamal.Message) (shareOK : elgamal.Message → Share → Bool)
      (fragOK : elgamal.Message → Fragment → Bool) (s : Share) (r : ShareRecovery),
      s.recovery = some r →
      (verify_share p k own m shareOK fragOK s = [] ↔
        ((∀ f ∈ r.fragments, fragOK m f = true) ∧
          r.fragments.length = k ∧
          (r.fragments.map (fun f => f.trustee_index)).Nodup ∧
          (∀ f ∈ r.fragments, f.trustee_index ≠ own) ∧
          s.share =
            (r.fragments.map (fun f => f.fragment ^ f.lagrange_coefficient)).prod % p)) := by
  intro p k own m shareOK fragOK s r hrec
  obtain ⟨rec, prf, sh⟩ := s
  have h' : rec = some r := hrec
  subst h'
  show check_recovery p k own (fun f => fragOK m f) sh r = [] ↔ _
  have hfold : r.fragments.foldl
      (fun acc f =>
        GroupArithmetic.mul p acc (GroupArithmetic.pow p f.fragment f.lagrange_coefficient))
      (1 % p) =
      (r.fragments.map (fun f => f.fragment ^ f.lagrange_coefficient)).prod % p := by
    have h1 := foldl_group_mul p
      (fun f : Fragment => GroupArithmetic.pow p f.fragment f.lagrange_coefficient)
      r.fragments 1
    rw [one_mul] at h1
    have h2 : (r.fragments.map
        (fun f => GroupArithmetic.pow p f.fragment f.lagrange_coefficient)).prod % p =
        (r.fragments.map (fun f => f.fragment ^ f.lagrange_coefficient)).prod % p := by
      have h3 : r.fragments.map
          (fun f => GroupArithmetic.pow p f.fragment f.lagrange_coefficient) =
          (r.fragments.map (fun f => f.fragment ^ f.lagrange_coefficient)).map
            (fun x => x % p) := by
        rw [List.map_map]
        rfl
      rw [h3, prod_map_mod]
    exact h1.trans h2
  simp only [check_recovery, List.append_eq_nil, nil_iff_of_ite, List.all_eq_true,
    bne_iff_ne, ne_eq, hfold]
  tauto

/-- Closed witness for the share-recovery theorem: a concrete one-fragment recovery for
threshold 1, absent trustee 1, fragment contributed by trustee 2. -/
theorem share_recovery_check_w :
    verify_share 5 1 1 ⟨0, 0⟩ (fun _ _ => true) (fun _ _ => true)
        ⟨some ⟨[⟨3, 2, ⟨0, 0, 0, 0⟩, 2⟩]⟩, ⟨0, 0, 0, 0⟩, 4⟩ = [] ↔
      ((∀ f ∈ ([⟨3, 2, ⟨0, 0, 0, 0⟩, 2⟩] : List Fragment),
          (fun (_ : elgamal.Message) (_ : Fragment) => true) (⟨0, 0⟩ : elgamal.Message) f =
            true) ∧
        ([⟨3, 2, ⟨0, 0, 0, 0⟩, 2⟩] : List Fragment).length = 1 ∧
        (([⟨3, 2, ⟨0, 0, 0, 0⟩, 2⟩] : List Fragment).map
          (fun f => f.trustee_index)).Nodup ∧
        (∀ f ∈ ([⟨3, 2, ⟨0, 0, 0, 0⟩, 2⟩] : List Fragment), f.trustee_index ≠ 1) ∧
        (4 : Nat) =
          (([⟨3, 2, ⟨0, 0, 0, 0⟩, 2⟩] : List Fragment).map
            (fun f => f.fragment ^ f.lagrange_coefficient)).prod % 5) :=
  share_recovery_check 5 1 1 ⟨0, 0⟩ (fun _ _ => true) (fun _ _ => true)
    ⟨some ⟨[⟨3, 2, ⟨0, 0, 0, 0⟩, 2⟩]⟩, ⟨0, 0, 0, 0⟩, 4⟩ ⟨[⟨3, 2, ⟨0, 0, 0, 0⟩, 2⟩]⟩ rfl

/-- C3: when full verification of a `DecryptedValue` succeeds, its decrypted value equals
the combination — the product modulo `p` — of its verified shares and equals
`g ^ cleartext mod p`; a mismatch in either equation is reported as `DecryptionMismatch`. -/
theorem decrypted_value_check :
    ∀ (p k g : Nat) (shareOK : elgamal.Message → Share → Bool)
      (fragOK : elgamal.Message → Fragment → Bool) (dv : DecryptedValue),
      (verify_decrypted_value p k g shareOK fragOK dv = [] →
        (dv.decrypted_value = (dv.shares.map (fun s => s.share)).prod % p ∧
          dv.decrypted_value = g ^ dv.cleartext % p)) ∧
      ((dv.decrypted_value ≠ (dv.shares.map (fun s => s.share)).prod % p ∨
          dv.decrypted_value ≠ g ^ dv.cleartext % p) →
        VerifError.DecryptionMismatch ∈ verify_decrypted_value p k g shareOK fragOK dv) := by
  intro p k g shareOK fragOK dv
  have hcomb : combine_shares p dv.shares = (dv.shares.map (fun s => s.share)).prod % p := by
    have h1 := foldl_group_mul p (fun s : Share => s.share) dv.shares 1
    rw [one_mul] at h1
    exact h1
  constructor
  · intro h
    simp only [verify_decrypted_value, check_decrypted_value, List.append_eq_nil,
      nil_iff_of_ite, hcomb, GroupArithmetic.pow] at h
    exact ⟨h.2.1, h.2.2⟩
  · intro h
    simp only [verify_decrypted_value, check_decrypted_value, List.mem_append]
    rcases h with h | h
    · refine Or.inr (Or.inl ?_)
      have hne : ¬dv.decrypted_value = combine_shares p dv.shares := by
        rw [hcomb]
        exact h
      rw [if_neg hne]
      exact List.mem_singleton.mpr rfl
    · refine Or.inr (Or.inr ?_)
      rw [if_neg (show ¬dv.decrypted_value = GroupArithmetic.pow p g dv.cleartext from by
        rw [GroupArithmetic.pow]; exact h)]
      exact List.mem_singleton.mpr rfl

/-- Closed witness for the decrypted-value theorem: a concrete decrypted value whose single
direct share combines to it and whose cleartext exponentiates to it. -/
theorem decrypted_value_check_w :
    (2 : Nat) = ([(⟨none, ⟨0, 0, 0, 0⟩, 2⟩ : Share)].map (fun s => s.share)).prod % 5 ∧
    (2 : Nat) = 2 ^ 1 % 5 :=
  (decrypted_value_check 5 1 2 (fun _ _ => true) (fun _ _ => true)
    ⟨1, 2, ⟨0, 0⟩, [⟨none, ⟨0, 0, 0, 0⟩, 2⟩]⟩).1 rfl

/-- C6 (amended): each trustee coefficient pairs a public key with a Schnorr proof, and
trustee-key verification accepts exactly when every coefficient's Schnorr proof verifies —
the challenge must match the hash-chain challenge over the public key and the commitment,
and `g^response = commitment * public_key^challenge mod p`; the first coefficient entry is
the trustee's main public key.  The schema does not enforce an exact count of `k` entries. -/
theorem trustee_key_verification :
    ∀ (p g context : Nat) (hash : Nat → List Nat → Nat) (t : TrusteePublicKey),
      (verify_trustee_key p g context hash t = [] ↔
        ∀ c ∈ t.coefficients,
          schnorr.check p g context hash c.public_key c.proof = true) ∧
      (∀ (c : TrusteeCoefficient) (rest : List TrusteeCoefficient),
        t.coefficients = c :: rest → first_coefficient_key t = c.public_key) ∧
      (∀ (pk : Nat) (pr : schnorr.Proof),
        schnorr.check p g context hash pk pr = true ↔
          (pr.challenge = hash context [pk, pr.commitment] ∧
            g ^ pr.response % p = pr.commitment * (pk ^ pr.challenge % p) % p)) := by
  intro p g context hash t
  refine ⟨?_, ?_, ?_⟩
  · simp only [verify_trustee_key, nil_iff_of_ite, List.all_eq_true]
  · intro c rest h
    obtain ⟨cs⟩ := t
    have h' : cs = c :: rest := h
    subst h'
    rfl
  · intro pk pr
    simp [schnorr.check, GroupArithmetic.pow, GroupArithmetic.mul, Bool.and_eq_true,
      beq_iff_eq]

/-- Closed witness for the trustee-key theorem: the main key of a concrete one-coefficient
trustee key. -/
theorem trustee_key_verification_w :
    first_coefficient_key ⟨[⟨4, ⟨0, 0, 0⟩⟩]⟩ = 4 :=
  (trustee_key_verification 5 2 0 (fun _ _ => 0) ⟨[⟨4, ⟨0, 0, 0⟩⟩]⟩).2.1
    ⟨4, ⟨0, 0, 0⟩⟩ [] rfl

/-- C6 counterexample: the schema and the modelled verifier accept a `TrusteePublicKey`
with zero coefficient entries even in an election whose threshold is 1, so a
`TrusteePublicKey` need not be a sequence of exactly `k` entries. -/
theorem trustee_key_exact_k_cex :
    (⟨"", "", 3, 1, 23, 2⟩ : Parameters).threshold = 1 ∧
    (⟨[]⟩ : TrusteePublicKey).coefficients.length ≠ 1 ∧
    deserialize_trustee_public_key (serialize_trustee_public_key ⟨[]⟩) = some ⟨[]⟩ ∧
    verify_trustee_key 23 2 0 (fun _ _ => 0) ⟨[]⟩ = [] :=
  ⟨rfl, by decide, rfl, rfl⟩

/-- C5: for a record that deserializes, verification covers every trustee, the joint key,
every contest of every cast ballot, every contest tally and every spoiled ballot, and an
entity's failures appear in the report independently of every other entity's result — the
verifier never stops at the first failure; a record whose top-level structure fails to
deserialize is the only fatal case, `FormatError`, and verification does not run at all. -/
theorem verification_continues_on_failure :
    ∀ (ct : TrusteePublicKey → List VerifError) (cc : CastContest → List VerifError)
      (cy : ContestTally → List VerifError) (cs : SpoiledBallot → List VerifError),
      (verify_record ct cc cy cs none = Except.error VerifError.FormatError) ∧
      (∀ r : Record, ∃ rep, verify_record ct cc cy cs (some r) = Except.ok rep) ∧
      (∀ (r : Record) (rep : List (EntityId × VerifError)) (i : Nat) (e : VerifError),
        verify_record ct cc cy cs (some r) = Except.ok rep →
        ((EntityId.trustee i, e) ∈ rep ↔
          ∃ t, r.trustee_public_keys.get? i = some t ∧ e ∈ ct t)) ∧
      (∀ (r : Record) (rep : List (EntityId × VerifError)) (i j : Nat) (e : VerifError),
        verify_record ct cc cy cs (some r) = Except.ok rep →
        ((EntityId.ballotContest i j, e) ∈ rep ↔
          ∃ b, r.cast_ballots.get? i = some b ∧
            ∃ c, b.contests.get? j = some c ∧ e ∈ cc c)) ∧
      (∀ (r : Record) (rep : List (EntityId × VerifError)) (i : Nat) (e : VerifError),
        verify_record ct cc cy cs (some r) = Except.ok rep →
        ((EntityId.tally i, e) ∈ rep ↔
          ∃ t, r.contest_tallies.get? i = some t ∧ e ∈ cy t)) ∧
      (∀ (r : Record) (rep : List (EntityId × VerifError)) (i : Nat) (e : VerifError),
        verify_record ct cc cy cs (some r) = Except.ok rep →
        ((EntityId.spoiled i, e) ∈ rep ↔
          ∃ s, r.spoiled_ballots.get? i = some s ∧ e ∈ cs s)) := by
  intro ct cc cy cs
  refine ⟨rfl, fun r => ⟨_, rfl⟩, ?_, ?_, ?_, ?_⟩
  · intro r rep i e hx
    injection hx with hx
    subst hx
    simp [List.mem_append, List.mem_map, Prod.exists, Prod.ext_iff, mem_enumFrom_zero]
  · intro r rep i j e hx
    injection hx with hx
    subst hx
    simp [List.mem_append, List.mem_map, Prod.exists, Prod.ext_iff, mem_enumFrom_zero]
  · intro r rep i e hx
    injection hx with hx
    subst hx
    simp [List.mem_append, List.mem_map, Prod.exists, Prod.ext_iff, mem_enumFrom_zero]
  · intro r rep i e hx
    injection hx with hx
    subst hx
    simp [List.mem_append, List.mem_map, Prod.exists, Prod.ext_iff, mem_enumFrom_zero]

/-- Closed witness for the continuation theorem: with a contest checker that fails every
contest, the failure of the second ballot's contest is in the report even though the first
ballot already failed. -/
theorem verification_continues_on_failure_w :
    (EntityId.ballotContest 1 0, VerifError.InvalidProof) ∈
        ([(EntityId.ballotContest 0 0, VerifError.InvalidProof),
          (EntityId.ballotContest 1 0, VerifError.InvalidProof)] :
          List (EntityId × VerifError)) ↔
      ∃ b, ([⟨⟨""⟩, [⟨[], 1, ⟨0, 0, 0, 0⟩⟩]⟩, ⟨⟨""⟩, [⟨[], 1, ⟨0, 0, 0, 0⟩⟩]⟩] :
            List CastBallot).get? 1 = some b ∧
        ∃ c, b.contests.get? 0 = some c ∧
          VerifError.InvalidProof ∈
            (fun (_ : CastContest) => [VerifError.InvalidProof]) c :=
  (verification_continues_on_failure (fun _ => [VerifError.ProofFailure])
      (fun _ => [VerifError.InvalidProof]) (fun _ => []) (fun _ => [])).2.2.2.1
    ⟨⟨"", "", 2, 1, 7, 2⟩, 0, [], 1, 0,
      [⟨⟨""⟩, [⟨[], 1, ⟨0, 0, 0, 0⟩⟩]⟩, ⟨⟨""⟩, [⟨[], 1, ⟨0, 0, 0, 0⟩⟩]⟩], [], []⟩
    [(EntityId.ballotContest 0 0, VerifError.InvalidProof),
      (EntityId.ballotContest 1 0, VerifError.InvalidProof)]
    1 0 VerifError.InvalidProof rfl

end ElectionGuard
